import Mathlib

/-!
Verification development for the AI Copilot Editor repository: a shallow
embedding of the text-transform request/response pipeline (prompt builder,
validation middleware, proxy handlers, health probes, and the client-side
action handlers), together with theorems settling the specified properties.
-/

namespace AiCopilot

/-- JavaScript runtime values, as far as the request bodies of this system
need them.  A request body field that is absent destructures to
`JSValue.undefined` (JavaScript destructuring of a missing property). -/
inductive JSValue where
  | undefined : JSValue
  | null : JSValue
  | bool : Bool → JSValue
  | num : Int → JSValue
  | str : String → JSValue
deriving Repr, DecidableEq

/-- JavaScript truthiness of a value (the test performed by `if (!text)`).
`undefined`, `null`, `false`, `0` and the empty string are falsy. -/
def JSValue.truthy : JSValue → Bool
  | .undefined => false
  | .null => false
  | .bool b => b
  | .num n => n != 0
  | .str s => s != ""

/-- The test `typeof text === "string"`. -/
def JSValue.isString : JSValue → Bool
  | .str _ => true
  | _ => false

/-- JavaScript string coercion, as performed by `+=` with a string
right-hand side and by template literals. -/
def JSValue.toJSString : JSValue → String
  | .undefined => "undefined"
  | .null => "null"
  | .bool true => "true"
  | .bool false => "false"
  | .num n => toString n
  | .str s => s

/-- Embeds src/backend/server.js lines 17-19:
`let prompt = text; if (action === "shorten") prompt += " Make it shorter
and concise."; else if (action === "lengthen") prompt += " Make it longer
and elaborative.";`
The `+=` coerces the left operand to a string; when neither branch matches,
the original value is left untouched. -/
def promptValue (action : String) (text : JSValue) : JSValue :=
  if action = "shorten" then .str (text.toJSString ++ " Make it shorter and concise.")
  else if action = "lengthen" then .str (text.toJSString ++ " Make it longer and elaborative.")
  else text

/-- The prompt builder restricted to string-typed text, which is the contract
`buildPrompt(action, text)` of the spec (section 4.1).  Defined from
`promptValue`, the embedding of src/backend/server.js lines 17-19. -/
def buildPrompt (action : String) (text : String) : String :=
  (promptValue action (.str text)).toJSString

/-- The fixed instruction suffix associated to each recognized action tag
(empty for an unrecognized tag). -/
def suffixFor (action : String) : String :=
  if action = "shorten" then " Make it shorter and concise."
  else if action = "lengthen" then " Make it longer and elaborative."
  else ""

/-- Body of the response of the minimal Gemini proxy: either the success shape
with a `result` field, or the 500 error shape with an `error` field. -/
inductive GeminiBody where
  | result : String → GeminiBody
  | apiError : String → GeminiBody
deriving Repr, DecidableEq

/-- Embeds the handler of `POST /ai/:action` in src/backend/server.js
lines 13-34.  The upstream provider (`modelFlash.generateContent` followed
by `result.response.text()`) is abstracted as a stub from the prompt to
either the generated text or a thrown error message.  The handler performs
no validation, builds the prompt, makes exactly one provider call, and on
success responds `200` with the provider text in `result`; on a thrown
error it responds `500` with the message
`Failed to process AI request: ` followed by the raw error message.
The second component records the prompts sent to the provider, in order. -/
def aiActionHandler (provider : JSValue → Except String String)
    (action : String) (text : JSValue) : (Nat × GeminiBody) × List JSValue :=
  let prompt := promptValue action text
  match provider prompt with
  | .ok output => ((200, .result output), [prompt])
  | .error msg => ((500, .apiError ("Failed to process AI request: " ++ msg)), [prompt])

/-- JavaScript `String.prototype.trim`: removes whitespace from both ends
of the string.  Defined over the character list so that it evaluates by
kernel reduction. -/
def jsTrim (s : String) : String :=
  ⟨((s.data.dropWhile Char.isWhitespace).reverse.dropWhile Char.isWhitespace).reverse⟩

/-- Outcome of the validation middleware: an early `400` rejection with
error, message and timestamp fields, or a pass-through to the handler. -/
inductive ValidationOutcome where
  | reject : Nat → String → String → String → ValidationOutcome
  | pass : ValidationOutcome
deriving Repr, DecidableEq

/-- Embeds `validateTextInput` of the full server (src/unnamed/part_001
lines 300-331).  The checks run in source order: first the truthiness test
`if (!text)` rejecting with the MissingField body, then
`typeof text !== "string"` rejecting with the WrongType body, then
`text.trim().length === 0` rejecting with the EmptyText body; otherwise
`next()` passes the request through unchanged.  `now` stands for
`new Date().toISOString()` at rejection time. -/
def validateTextInput (now : String) (text : JSValue) : ValidationOutcome :=
  if text.truthy = false then
    .reject 400 "Invalid request" "Text field is required" now
  else if text.isString = false then
    .reject 400 "Invalid request" "Text must be a string" now
  else if (jsTrim text.toJSString).length = 0 then
    .reject 400 "Invalid request" "Text cannot be empty" now
  else
    .pass

/-- Response body of the transform endpoints of the full server: the success
envelope carrying success, result and timestamp, or the error envelope
carrying a status code, error, message and timestamp. -/
inductive ApiReply where
  | success : String → String → ApiReply
  | failure : Nat → String → String → String → ApiReply
deriving Repr, DecidableEq

/-- True exactly on the 400 validation-error envelope whose error field is
the string used by every branch of `validateTextInput`. -/
def ApiReply.isValidationError : ApiReply → Bool
  | .failure 400 "Invalid request" _ _ => true
  | _ => false

/-- Embeds the catch block of the transform handlers of the full server
(src/unnamed/part_001 lines 354-358 and 382-386): status 500 with message
`error.message` when `NODE_ENV === "development"` and the fixed string
`An error occurred` otherwise. -/
def errorReply (env : String) (errMsg : String) (now : String) : ApiReply :=
  .failure 500 "Internal server error"
    (if env = "development" then errMsg else "An error occurred") now

/-- Embeds `POST /api/make-shorter` of the full server (src/unnamed/part_001
lines 334-360): the route runs `validateTextInput` first; on pass the
handler computes the template literal `Shorter version of: ` followed by
the text and replies with the success envelope.  No external provider
exists on this path; the second component (the list of provider calls) is
always empty.  The try block consists of pure string operations and
logging, so its catch branch is unreachable. -/
def makeShorterEndpoint (now : String) (text : JSValue) : ApiReply × List String :=
  match validateTextInput now text with
  | .reject s e m t => (.failure s e m t, [])
  | .pass => (.success ("Shorter version of: " ++ text.toJSString) now, [])

/-- Embeds `POST /api/make-longer` of the full server (src/unnamed/part_001
lines 362-388), identical to `makeShorterEndpoint` up to the literal
`Longer version of: `. -/
def makeLongerEndpoint (now : String) (text : JSValue) : ApiReply × List String :=
  match validateTextInput now text with
  | .reject s e m t => (.failure s e m t, [])
  | .pass => (.success ("Longer version of: " ++ text.toJSString) now, [])

/-- Response body of the transform endpoints of the minimal stub server
(src/unnamed/part_002): a bare object with a single result field. -/
structure MinimalReply where
  result : String
deriving Repr, DecidableEq

/-- Embeds `POST /api/make-shorter` of the minimal stub server
(src/unnamed/part_002 lines 164-167): no validation, no external call,
result is the template literal over whatever `req.body.text` destructures
to. -/
def minimalMakeShorter (text : JSValue) : MinimalReply × List String :=
  (⟨"Shorter version of: " ++ text.toJSString⟩, [])

/-- Embeds `POST /api/make-longer` of the minimal stub server
(src/unnamed/part_002 lines 169-172). -/
def minimalMakeLonger (text : JSValue) : MinimalReply × List String :=
  (⟨"Longer version of: " ++ text.toJSString⟩, [])

/-- Body of a liveness-probe response: the health shape of the full server
(status, timestamp, uptime, environment), its ready shape (status,
timestamp), or a plain text body. -/
inductive ProbeBody where
  | health : String → String → Nat → String → ProbeBody
  | ready : String → String → ProbeBody
  | plainText : String → ProbeBody
deriving Repr, DecidableEq

/-- True exactly on the four-field health JSON shape. -/
def ProbeBody.isHealthShape : ProbeBody → Bool
  | .health _ _ _ _ => true
  | _ => false

/-- Embeds `GET /health` of the full server (src/unnamed/part_001 lines
282-289): status 200 with the four-field body read from the clock
(`new Date().toISOString()`, `process.uptime()`) and `NODE_ENV`.  The
handler reads no mutable server state and writes none. -/
def healthHandler (env now : String) (uptime : Nat) : Nat × ProbeBody :=
  (200, .health "healthy" now uptime env)

/-- Embeds `GET /ready` of the full server (src/unnamed/part_001 lines
292-297): status 200 with the two-field body. -/
def readyHandler (now : String) : Nat × ProbeBody :=
  (200, .ready "ready" now)

/-- Embeds `GET /health` of the minimal stub server (src/unnamed/part_002
line 161): `res.send` of the plain string, status 200. -/
def minimalHealthHandler : Nat × ProbeBody :=
  (200, .plainText "ok")

/-- Client-side editor state for the tiptap clients: the document as plain
text together with the current selection, a half-open range from `selFrom`
to `selTo` over text positions. -/
structure TiptapState where
  doc : String
  selFrom : Nat
  selTo : Nat
deriving Repr, DecidableEq

/-- The text of the current selection, as read by
`editor.state.doc.textBetween(selection.from, selection.to)`. -/
def TiptapState.selectedText (st : TiptapState) : String :=
  (st.doc.take st.selTo).drop st.selFrom

/-- Modelled from the spec: the third-party editor primitive
`insertContentAt(selection, content)` is not part of this repository; per
the data model of the spec the selection is a half-open range over text
positions and insertion at it replaces the selected range with the given
content.  Cursor placement after the insertion is owned by the editor
library and outside this model. -/
def TiptapState.spliceSelection (st : TiptapState) (content : String) : TiptapState :=
  { st with doc := st.doc.take st.selFrom ++ content ++ st.doc.drop st.selTo }

/-- A resolved `fetch` response as the part_001 client consumes it:
`ok` is `response.ok`, and `result` is the `result` field of the parsed
JSON body (`none` when absent). -/
structure FetchResponse where
  ok : Bool
  result : Option String
deriving Repr, DecidableEq

/-- Embeds `handleAction` of the tiptap client (src/unnamed/part_001 lines
74-111).  If the selected text is blank after trimming it logs a console
warning and returns - no user-visible error state exists in this
component and no request is sent.  Otherwise exactly one request carrying
the selected text is sent; its outcome is a thrown network error or a
resolved response.  On a non-ok status or a response whose `data.result`
is absent or falsy (the empty string), the handler logs and leaves the
editor untouched; only a truthy `data.result` is spliced into the document
at the selection.  The second component lists the texts sent over the
network. -/
def handleAction (st : TiptapState)
    (fetchResult : Except String FetchResponse) : TiptapState × List String :=
  let selectedText := st.selectedText
  if jsTrim selectedText = "" then (st, [])
  else
    (match fetchResult with
     | .error _ => st
     | .ok resp =>
       if resp.ok = false then st
       else
         match resp.result with
         | some r => if r = "" then st else st.spliceSelection r
         | none => st,
     [selectedText])

/-- Client state of the Bootstrap variant
(src/frontend/ai-copilot-editor/src/App.js lines 10-55): the editor
document plus the four pieces of React state the action handler touches.
The transformed text is displayed in a separate result card, not in the
editor document. -/
structure BootstrapState where
  doc : String
  transformedText : String
  loading : Bool
  error : Option String
  success : Bool
deriving Repr, DecidableEq

/-- An axios rejection as the Bootstrap client consumes it:
`err.response?.data?.message` and `err.message`, each possibly absent. -/
structure AxiosError where
  responseMessage : Option String
  message : Option String
deriving Repr, DecidableEq

/-- The message the Bootstrap client surfaces for a failed request:
`err.response?.data?.message || err.message ||` the fallback literal
`Failed to process text`,
with JavaScript truthiness (an absent or empty string falls through). -/
def AxiosError.clientMessage (e : AxiosError) : String :=
  match e.responseMessage with
  | some m => if m = "" then
      (match e.message with
       | some m2 => if m2 = "" then "Failed to process text" else m2
       | none => "Failed to process text")
    else m
  | none =>
    match e.message with
    | some m2 => if m2 = "" then "Failed to process text" else m2
    | none => "Failed to process text"

/-- A resolved axios response as the Bootstrap client consumes it:
`response.data.result`, possibly absent. -/
structure AxiosResponse where
  result : Option String
deriving Repr, DecidableEq

/-- Embeds `handleAIAction` of the Bootstrap client
(src/frontend/ai-copilot-editor/src/App.js lines 24-55).  A blank
selection (`!selectedText || selectedText.trim().length === 0`) sets the
local validation error and returns without a request.  Otherwise it clears
error and success, sends one request with the selected text, and on a
response whose `data.result` is truthy stores it in `transformedText` and
sets success; on a rejection it sets `error` to the computed client
message.  The `finally` clause resets `loading`.  The editor document is
never written on any path.  The second component lists the texts sent. -/
def bootstrapHandleAIAction (st : BootstrapState) (selectedText : String)
    (response : Except AxiosError AxiosResponse) : BootstrapState × List String :=
  if selectedText = "" ∨ (jsTrim selectedText).length = 0 then
    ({ st with error := some "Please select text to transform" }, [])
  else
    let st1 : BootstrapState :=
      { st with loading := true, error := none, success := false }
    match response with
    | .ok r =>
      (match r.result with
       | some res =>
         if res = "" then { st1 with loading := false }
         else { st1 with transformedText := res, success := true, loading := false }
       | none => { st1 with loading := false },
       [selectedText])
    | .error e =>
      ({ st1 with error := some e.clientMessage, loading := false }, [selectedText])

/-- Control path taken by the second, minimal client variant: the silent
early return of its guard, or the catch of the ReferenceError thrown when
the request expression is evaluated. -/
inductive MinimalOutcome where
  | earlyReturn : MinimalOutcome
  | caughtReferenceError : MinimalOutcome
deriving Repr, DecidableEq

/-- Embeds `handleAIAction` of the second, minimal client variant
(src/frontend/ai-copilot-editor/src/App.js lines 320-334).  The guard
`if (!selectedText) return;` fires only on the exactly-empty string and
returns silently.  Past the guard, the request expression references the
identifier `url` whose declaration is commented out, so evaluating it
throws a ReferenceError that the catch block logs to the console.  The
result carries the path taken, the user-visible error (this component has
no error UI, so it is always `none`), and the list of texts actually sent
over the network (empty on every path, since the ReferenceError is thrown
while evaluating the arguments, before any request is issued). -/
def handleAIActionMinimal (selectedText : String) :
    MinimalOutcome × Option String × List String :=
  if selectedText = "" then (.earlyReturn, none, [])
  else (.caughtReferenceError, none, [])

/-! ## General lemmas -/

theorem string_length_eq_zero_iff (s : String) : s.length = 0 ↔ s = "" := by
  cases s with
  | mk data =>
    constructor
    · intro h
      have hd : data = [] := List.length_eq_zero.mp h
      subst hd; rfl
    · intro h
      have hd : data = [] := congrArg String.data h
      simp [String.length, hd]

theorem jsTrim_of_empty : jsTrim "" = "" := rfl

theorem ne_empty_of_jsTrim_ne_empty (s : String) (h : jsTrim s ≠ "") : s ≠ "" := by
  intro he; subst he; exact h rfl

/-! ## Claim theorems -/

/-- C1: For every well-formed transform request (text a non-blank string,
action one of shorten or lengthen), the minimal Gemini proxy handler makes
exactly one call to the upstream provider, the outbound prompt equals the
request text concatenated with the fixed suffix for the given action, and
when the provider returns text R the response is 200 with result exactly R:
no retry, no caching, no modification of the provider text. -/
theorem gemini_roundtrip_single_call (provider : JSValue → Except String String)
    (action t R : String)
    (ha : action = "shorten" ∨ action = "lengthen")
    (ht : jsTrim t ≠ "")
    (hp : provider (.str (t ++ suffixFor action)) = Except.ok R) :
    aiActionHandler provider action (.str t) =
      ((200, .result R), [.str (t ++ suffixFor action)]) := by
  rcases ha with h | h <;> subst h <;>
    simp only [aiActionHandler, promptValue, suffixFor, JSValue.toJSString,
      reduceIte, String.reduceEq] at hp ⊢ <;>
    simp [hp]

/-- Witness for C1 at a concrete request and provider stub. -/
theorem gemini_roundtrip_single_call_witness :
    aiActionHandler (fun _ => Except.ok "R0") "shorten" (.str "Hello") =
      ((200, .result "R0"), [.str "Hello Make it shorter and concise."]) := by
  exact gemini_roundtrip_single_call (fun _ => Except.ok "R0") "shorten" "Hello" "R0"
    (Or.inl rfl) (by decide) rfl

/-- C2: buildPrompt is a pure deterministic function of action and text:
shorten appends the shorter suffix, lengthen appends the longer suffix, and
every other action tag yields the text unchanged - a silent pass-through,
not an error. -/
theorem buildPrompt_cases (t a : String) :
    buildPrompt "shorten" t = t ++ " Make it shorter and concise." ∧
    buildPrompt "lengthen" t = t ++ " Make it longer and elaborative." ∧
    (a ≠ "shorten" → a ≠ "lengthen" → buildPrompt a t = t) := by
  refine ⟨?_, ?_, ?_⟩
  · simp [buildPrompt, promptValue, JSValue.toJSString]
  · simp [buildPrompt, promptValue, JSValue.toJSString]
  · intro h1 h2
    simp [buildPrompt, promptValue, JSValue.toJSString, h1, h2]

/-- Witness for C2 at concrete action tags and text. -/
theorem buildPrompt_cases_witness :
    buildPrompt "shorten" "Hi" = "Hi Make it shorter and concise." ∧
    buildPrompt "reverse" "Hi" = "Hi" :=
  ⟨(buildPrompt_cases "Hi" "reverse").1,
   (buildPrompt_cases "Hi" "reverse").2.2 (by decide) (by decide)⟩

/-- C9: In the minimal Gemini proxy, a POST to the shorten route whose body
lacks the text field is not rejected: the undefined value is coerced into
the prompt, so the provider is called with the literal prompt
`undefined Make it shorter and concise.` - and analogously for lengthen -
and with a succeeding provider the response is 200 with the provider text. -/
theorem gemini_missing_text_coerced (provider : JSValue → Except String String) :
    (aiActionHandler provider "shorten" .undefined).2 =
      [.str "undefined Make it shorter and concise."] ∧
    (aiActionHandler provider "lengthen" .undefined).2 =
      [.str "undefined Make it longer and elaborative."] ∧
    aiActionHandler (fun _ => Except.ok "R0") "shorten" .undefined =
      ((200, .result "R0"), [.str "undefined Make it shorter and concise."]) := by
  refine ⟨?_, ?_, by decide⟩ <;>
  · simp only [aiActionHandler, promptValue, JSValue.toJSString, reduceIte, String.reduceEq]
    cases provider (.str _) <;> rfl

/-- C10: In the stub server variants, the transform endpoints are
deterministic pure string concatenations with no external provider call:
for every valid text, make-shorter returns result exactly
`Shorter version of: ` followed by the text and make-longer returns result
exactly `Longer version of: ` followed by the text, in the success
envelope of the full server and in the bare result object of the minimal
server. -/
theorem stub_endpoints_pure_concat (now t : String) (ht : jsTrim t ≠ "") :
    makeShorterEndpoint now (.str t) =
      (.success ("Shorter version of: " ++ t) now, []) ∧
    makeLongerEndpoint now (.str t) =
      (.success ("Longer version of: " ++ t) now, []) ∧
    minimalMakeShorter (.str t) = (⟨"Shorter version of: " ++ t⟩, []) ∧
    minimalMakeLonger (.str t) = (⟨"Longer version of: " ++ t⟩, []) := by
  have hne : t ≠ "" := ne_empty_of_jsTrim_ne_empty t ht
  have hlen : (jsTrim t).length ≠ 0 := fun h => ht ((string_length_eq_zero_iff _).mp h)
  have hval : validateTextInput now (.str t) = .pass := by
    simp [validateTextInput, JSValue.truthy, JSValue.isString, JSValue.toJSString, hne, hlen]
  refine ⟨?_, ?_, rfl, rfl⟩ <;>
    simp [makeShorterEndpoint, makeLongerEndpoint, hval, JSValue.toJSString]

/-- Witness for C10 at a concrete text. -/
theorem stub_endpoints_pure_concat_witness :
    makeShorterEndpoint "T" (.str "Hi") =
      (.success "Shorter version of: Hi" "T", []) ∧
    makeLongerEndpoint "T" (.str "Hi") =
      (.success "Longer version of: Hi" "T", []) := by
  have h := stub_endpoints_pure_concat "T" "Hi" (by decide)
  exact ⟨h.1, h.2.1⟩

/-- C3 counterexample: a body whose text field is the empty string - text
present, a string, and zero-length after trimming - is rejected by the
truthiness check that runs first, so it gets the MissingField message
`Text field is required`, not the EmptyText message `Text cannot be empty`
that the claim assigns to it. -/
theorem validate_empty_string_misclassified :
    validateTextInput "T" (.str "") =
      .reject 400 "Invalid request" "Text field is required" "T" ∧
    validateTextInput "T" (.str "") ≠
      .reject 400 "Invalid request" "Text cannot be empty" "T" := by decide

/-- C3 amended: the validation middleware classifies request bodies in the
source order of its checks, truthiness first: a falsy text value - absent,
null, false, zero, or the empty string - fails with the MissingField error;
a truthy non-string fails with the WrongType error; a truthy string that is
zero-length after trimming fails with the EmptyText error; and a string
with nonempty trim passes through unchanged. -/
theorem validateTextInput_classification (now : String) (v : JSValue) :
    (v.truthy = false →
      validateTextInput now v =
        .reject 400 "Invalid request" "Text field is required" now) ∧
    (v.truthy = true → v.isString = false →
      validateTextInput now v =
        .reject 400 "Invalid request" "Text must be a string" now) ∧
    (∀ s, v = .str s → s ≠ "" → (jsTrim s).length = 0 →
      validateTextInput now v =
        .reject 400 "Invalid request" "Text cannot be empty" now) ∧
    (∀ s, v = .str s → (jsTrim s).length ≠ 0 →
      validateTextInput now v = .pass) := by
  refine ⟨?_, ?_, ?_, ?_⟩
  · intro h; simp [validateTextInput, h]
  · intro h1 h2; simp [validateTextInput, h1, h2]
  · intro s hv hs hlen; subst hv
    simp [validateTextInput, JSValue.truthy, JSValue.isString, JSValue.toJSString, hs, hlen]
  · intro s hv hlen; subst hv
    have hne : s ≠ "" := by
      intro he; subst he; exact hlen rfl
    simp [validateTextInput, JSValue.truthy, JSValue.isString, JSValue.toJSString, hne, hlen]

/-- Witness for the amended C3, one concrete input per branch. -/
theorem validateTextInput_classification_witness :
    validateTextInput "T" .undefined =
      .reject 400 "Invalid request" "Text field is required" "T" ∧
    validateTextInput "T" (.num 3) =
      .reject 400 "Invalid request" "Text must be a string" "T" ∧
    validateTextInput "T" (.str " ") =
      .reject 400 "Invalid request" "Text cannot be empty" "T" ∧
    validateTextInput "T" (.str "Hi") = .pass :=
  ⟨(validateTextInput_classification "T" .undefined).1 (by decide),
   (validateTextInput_classification "T" (.num 3)).2.1 (by decide) (by decide),
   (validateTextInput_classification "T" (.str " ")).2.2.1 " " rfl (by decide) (by decide),
   (validateTextInput_classification "T" (.str "Hi")).2.2.2 "Hi" rfl (by decide)⟩

theorem validateTextInput_invalid_reject (now : String) (v : JSValue)
    (h : v.isString = false ∨ (jsTrim v.toJSString).length = 0) :
    ∃ m, validateTextInput now v = .reject 400 "Invalid request" m now := by
  cases v with
  | undefined => exact ⟨"Text field is required", by simp [validateTextInput, JSValue.truthy]⟩
  | null => exact ⟨"Text field is required", by simp [validateTextInput, JSValue.truthy]⟩
  | bool b =>
    cases b with
    | false => exact ⟨"Text field is required", by simp [validateTextInput, JSValue.truthy]⟩
    | true =>
      exact ⟨"Text must be a string",
        by simp [validateTextInput, JSValue.truthy, JSValue.isString]⟩
  | num n =>
    by_cases hn : n = 0
    · exact ⟨"Text field is required",
        by simp [validateTextInput, JSValue.truthy, hn]⟩
    · exact ⟨"Text must be a string",
        by simp [validateTextInput, JSValue.truthy, JSValue.isString, hn]⟩
  | str s =>
    have hlen : (jsTrim s).length = 0 := by
      rcases h with h1 | h2
      · simp [JSValue.isString] at h1
      · simpa [JSValue.toJSString] using h2
    by_cases hs : s = ""
    · exact ⟨"Text field is required",
        by simp [validateTextInput, JSValue.truthy, hs]⟩
    · exact ⟨"Text cannot be empty",
        by simp [validateTextInput, JSValue.truthy, JSValue.isString, JSValue.toJSString, hs, hlen]⟩

/-- C4 counterexample: on the transform route of the minimal Gemini proxy, a
request whose body lacks the text field is not answered with a 400
ValidationError and the upstream provider is called: with a succeeding
provider stub the handler responds 200 and the recorded provider call list
is nonempty. -/
theorem gemini_route_skips_validation :
    aiActionHandler (fun _ => Except.ok "R1") "shorten" .undefined =
      ((200, .result "R1"), [.str "undefined Make it shorter and concise."]) ∧
    (aiActionHandler (fun _ => Except.ok "R1") "shorten" .undefined).2 ≠ [] := by
  decide

/-- C4 amended: on the transform endpoints of the validated server - the routes
guarded by validateTextInput - every request whose text is missing, not a
string, or blank after trimming is answered by the 400 `Invalid request`
envelope and no external provider call is made; the minimal Gemini proxy
route performs no such validation. -/
theorem validated_endpoints_fail_fast (now : String) (v : JSValue)
    (h : v.isString = false ∨ (jsTrim v.toJSString).length = 0) :
    ((makeShorterEndpoint now v).1.isValidationError = true ∧
      (makeShorterEndpoint now v).2 = []) ∧
    ((makeLongerEndpoint now v).1.isValidationError = true ∧
      (makeLongerEndpoint now v).2 = []) := by
  obtain ⟨m, hm⟩ := validateTextInput_invalid_reject now v h
  refine ⟨⟨?_, ?_⟩, ⟨?_, ?_⟩⟩ <;>
    simp [makeShorterEndpoint, makeLongerEndpoint, hm, ApiReply.isValidationError]

/-- Witness for the amended C4: a missing text field and a whitespace-only
text, on both validated endpoints. -/
theorem validated_endpoints_fail_fast_witness :
    (makeShorterEndpoint "T" .undefined).1.isValidationError = true ∧
    (makeShorterEndpoint "T" .undefined).2 = [] ∧
    (makeLongerEndpoint "T" (.str " ")).1.isValidationError = true ∧
    (makeLongerEndpoint "T" (.str " ")).2 = [] := by
  have h1 := validated_endpoints_fail_fast "T" .undefined (Or.inl (by decide))
  have h2 := validated_endpoints_fail_fast "T" (.str " ") (Or.inr (by decide))
  exact ⟨h1.1.1, h1.1.2, h2.2.1, h2.2.2⟩

/-- C5 counterexample: in the minimal Gemini proxy, an upstream failure is
answered with a message that embeds the raw error text unconditionally -
the handler has no environment-mode input at all - so two different raw
provider errors produce two different client-visible messages, and neither
is a generic fixed message. -/
theorem gemini_error_leaks_raw_text :
    (aiActionHandler (fun _ => Except.error "boom") "shorten" (.str "Hi")).1 =
      (500, .apiError "Failed to process AI request: boom") ∧
    (aiActionHandler (fun _ => Except.error "quux") "shorten" (.str "Hi")).1 =
      (500, .apiError "Failed to process AI request: quux") ∧
    GeminiBody.apiError "Failed to process AI request: boom" ≠
      GeminiBody.apiError "Failed to process AI request: quux" := by
  decide

/-- C5 amended: in the error replies of the full server, the client-visible
message depends on the environment mode - in development it is exactly the
text of the underlying error, and in any other mode it is the fixed generic
string `An error occurred`, independent of the underlying error; the
minimal Gemini proxy, by contrast, always embeds the raw error text with
no mode dependence. -/
theorem errorReply_mode_masking (env errMsg now : String)
    (henv : env ≠ "development") :
    errorReply "development" errMsg now =
      .failure 500 "Internal server error" errMsg now ∧
    errorReply env errMsg now =
      .failure 500 "Internal server error" "An error occurred" now := by
  constructor
  · simp [errorReply]
  · simp [errorReply, henv]

/-- Witness for the amended C5 in production mode with a concrete error. -/
theorem errorReply_mode_masking_witness :
    errorReply "development" "boom" "T" =
      .failure 500 "Internal server error" "boom" "T" ∧
    errorReply "production" "boom" "T" =
      .failure 500 "Internal server error" "An error occurred" "T" := by
  have h := errorReply_mode_masking "production" "boom" "T" (by decide)
  exact ⟨h.1, h.2⟩

/-- C6 counterexample: the Bootstrap client does not splice a successful
result into the document: with document `Hello world`, selection text
`Hello` (range 0 to 5) and a success response carrying `XYZ`, the document
after the handler is still `Hello world`, while splicing at that selection
would have produced the different document `XYZ world`; the result is
stored in the separate transformedText state instead. -/
theorem bootstrap_success_does_not_splice :
    (bootstrapHandleAIAction ⟨"Hello world", "", false, none, false⟩ "Hello"
        (.ok ⟨some "XYZ"⟩)).1.doc = "Hello world" ∧
    (bootstrapHandleAIAction ⟨"Hello world", "", false, none, false⟩ "Hello"
        (.ok ⟨some "XYZ"⟩)).1.transformedText = "XYZ" ∧
    (TiptapState.spliceSelection ⟨"Hello world", 0, 5⟩ "XYZ").doc = "XYZ world" ∧
    "Hello world" ≠ "XYZ world" := by
  decide

/-- C6 amended: in the tiptap client a success response with a truthy
result is spliced into the document at the selection and every failure -
thrown error, non-ok status, missing or empty result - leaves the document
unmodified; in the Bootstrap client the document is never modified on any
path: a success stores the result in the separate transformedText state and
a failure surfaces the computed error message in the error state. -/
theorem client_splice_frame :
    (∀ st : TiptapState, ∀ r : String, jsTrim st.selectedText ≠ "" → r ≠ "" →
        handleAction st (.ok ⟨true, some r⟩) =
          (st.spliceSelection r, [st.selectedText])) ∧
    (∀ st : TiptapState, ∀ e : String, (handleAction st (.error e)).1 = st) ∧
    (∀ st : TiptapState, ∀ resp : FetchResponse, resp.ok = false →
        (handleAction st (.ok resp)).1 = st) ∧
    (∀ st : TiptapState, (handleAction st (.ok ⟨true, none⟩)).1 = st) ∧
    (∀ st : TiptapState, (handleAction st (.ok ⟨true, some ""⟩)).1 = st) ∧
    (∀ bst : BootstrapState, ∀ s : String,
        ∀ resp : Except AxiosError AxiosResponse,
        (bootstrapHandleAIAction bst s resp).1.doc = bst.doc) ∧
    (∀ bst : BootstrapState, ∀ s : String, ∀ e : AxiosError, jsTrim s ≠ "" →
        (bootstrapHandleAIAction bst s (.error e)).1.error =
          some e.clientMessage) := by
  refine ⟨?_, ?_, ?_, ?_, ?_, ?_, ?_⟩
  · intro st r hsel hr
    simp [handleAction, hsel, hr]
  · intro st e
    by_cases hg : jsTrim st.selectedText = "" <;> simp [handleAction, hg]
  · intro st resp hok
    by_cases hg : jsTrim st.selectedText = "" <;> simp [handleAction, hg, hok]
  · intro st
    by_cases hg : jsTrim st.selectedText = "" <;> simp [handleAction, hg]
  · intro st
    by_cases hg : jsTrim st.selectedText = "" <;> simp [handleAction, hg]
  · intro bst s resp
    by_cases hg : s = "" ∨ (jsTrim s).length = 0
    · simp [bootstrapHandleAIAction, hg]
    · cases resp with
      | error e => simp [bootstrapHandleAIAction, hg]
      | ok r =>
        cases hres : r.result with
        | none => simp [bootstrapHandleAIAction, hg, hres]
        | some res =>
          by_cases hr : res = "" <;> simp [bootstrapHandleAIAction, hg, hres, hr]
  · intro bst s e hs
    have hne : s ≠ "" := ne_empty_of_jsTrim_ne_empty s hs
    have hlen : (jsTrim s).length ≠ 0 :=
      fun h => hs ((string_length_eq_zero_iff _).mp h)
    simp [bootstrapHandleAIAction, hne, hlen]

/-- Witness for the amended C6: a concrete splice on success, a concrete
unmodified document on failure, and a concrete surfaced error message. -/
theorem client_splice_frame_witness :
    handleAction ⟨"Hello world", 0, 5⟩ (.ok ⟨true, some "Hi"⟩) =
      (⟨"Hi world", 0, 5⟩, ["Hello"]) ∧
    (handleAction ⟨"Hello world", 0, 5⟩ (.error "down")).1 = ⟨"Hello world", 0, 5⟩ ∧
    (bootstrapHandleAIAction ⟨"D", "", false, none, false⟩ "Hello"
        (.error ⟨none, some "down"⟩)).1.error = some "down" := by
  have h := client_splice_frame
  refine ⟨?_, ?_, ?_⟩
  · have h1 := h.1 ⟨"Hello world", 0, 5⟩ "Hi" (by decide) (by decide)
    rw [h1]; decide
  · exact h.2.1 ⟨"Hello world", 0, 5⟩ "down"
  · have h2 := h.2.2.2.2.2.2 ⟨"D", "", false, none, false⟩ "Hello"
      ⟨none, some "down"⟩ (by decide)
    rw [h2]; decide

/-- C7 counterexample: the minimal client variant surfaces no local
validation error on a blank selection: an exactly-empty selection takes the
silent early return with no user-visible error, and a whitespace-only
selection is not treated as invalid at all - it passes the guard and
proceeds to the request attempt. -/
theorem minimal_client_silent_on_blank :
    handleAIActionMinimal "" = (.earlyReturn, none, []) ∧
    handleAIActionMinimal " " = (.caughtReferenceError, none, []) := by
  decide

/-- C7 amended: on a selection that is empty or whitespace-only, the
Bootstrap client sets the local validation error message and sends no
request; the tiptap client logs a console warning and returns with no state
change and no request; the minimal client variant guards only the
exactly-empty selection, silently and with no user-visible error, lets a
whitespace-only selection pass its guard, and sends no request on any path
only because its url binding is missing. -/
theorem blank_selection_local_handling :
    (∀ bst : BootstrapState, ∀ s : String,
        ∀ resp : Except AxiosError AxiosResponse, (jsTrim s).length = 0 →
        bootstrapHandleAIAction bst s resp =
          ({ bst with error := some "Please select text to transform" }, [])) ∧
    (∀ st : TiptapState, ∀ fr : Except String FetchResponse,
        jsTrim st.selectedText = "" → handleAction st fr = (st, [])) ∧
    (∀ s : String, (handleAIActionMinimal s).2 = (none, [])) ∧
    (handleAIActionMinimal " ").1 = .caughtReferenceError := by
  refine ⟨?_, ?_, ?_, by decide⟩
  · intro bst s resp h
    rw [bootstrapHandleAIAction, if_pos (Or.inr h)]
  · intro st fr h
    simp [handleAction, h]
  · intro s
    by_cases hs : s = "" <;> simp [handleAIActionMinimal, hs]

/-- Witness for the amended C7 at concrete blank selections. -/
theorem blank_selection_local_handling_witness :
    bootstrapHandleAIAction ⟨"D", "", false, none, false⟩ " " (.ok ⟨some "R"⟩) =
      (⟨"D", "", false, some "Please select text to transform", false⟩, []) ∧
    handleAction ⟨"Hello", 2, 2⟩ (.ok ⟨true, some "R"⟩) = (⟨"Hello", 2, 2⟩, []) := by
  have h := blank_selection_local_handling
  constructor
  · have h1 := h.1 ⟨"D", "", false, none, false⟩ " " (.ok ⟨some "R"⟩) (by decide)
    rw [h1]
  · exact h.2.1 ⟨"Hello", 2, 2⟩ (.ok ⟨true, some "R"⟩) (by decide)

/-- C8 counterexample: the health probe of the minimal stub server responds with
the plain text body `ok`, not with the four-field JSON shape of status,
timestamp, uptime and environment that the claim asserts for every call to
the health route. -/
theorem minimal_health_plain_text :
    minimalHealthHandler = (200, .plainText "ok") ∧
    minimalHealthHandler.2.isHealthShape = false := by
  decide

/-- C8 amended: the probe handlers are functions of the environment and the
clock alone, reading and writing no mutable server state: for every clock
reading the health probe of the full server responds 200 with the four-field
health shape, its ready probe responds 200 with the two-field ready shape,
and the health probe of the minimal stub server responds 200 with the plain
text body `ok`. -/
theorem probe_handlers_static (env now : String) (uptime : Nat) :
    healthHandler env now uptime = (200, .health "healthy" now uptime env) ∧
    readyHandler now = (200, .ready "ready" now) ∧
    minimalHealthHandler = (200, .plainText "ok") :=
  ⟨rfl, rfl, rfl⟩

end AiCopilot
